import Mathlib

/-!
Verification of the appointment-booking backend.

The definitions below are a shallow embedding of the repository's domain
logic.  The database table is a `List Appointment`; timestamps are `Nat`
milliseconds since the epoch (the configured local time zone's offset is
absorbed into the epoch origin, so "local midnight" is truncation to a
multiple of a day); a SQL query without an `ORDER BY` clause is modelled as
a relation admitting any permutation of the matching rows, and `ORDER BY
created_at DESC` as a relation additionally requiring the output to be
sorted.  Outbound e-mail/WhatsApp sends (stubbed in the source) are modelled
by an environment assigning each send attempt its boolean outcome, because
every send function in the source catches its own errors and returns a
boolean.
-/

/-- Status enumeration, from the `appointment_status` pg enum / zod enum. -/
inductive AppointmentStatus where
  | Received
  | Contacted
  | Confirmed
  | Completed
  | Cancelled
deriving DecidableEq, BEq, Repr

/-- One row of the `appointments` table (db/schema and the zod
`appointmentSchema`). -/
structure Appointment where
  id : Nat
  name : String
  phone : Option String
  email : Option String
  tests : List String
  preferred_date : Nat
  notes : Option String
  address_house_no : Option String
  address_house_name : Option String
  address_street : Option String
  address_locality : Option String
  address_city : Option String
  address_state : Option String
  address_pincode : Option String
  lat : Option Int
  lng : Option Int
  status : AppointmentStatus
  created_at : Nat
  updated_at : Nat
  last_reminder_sent_at : Option Nat
  slot_hint : Option String
  fasting_required : Bool
deriving DecidableEq, Repr

/-- Milliseconds in one day. -/
def dayMs : Nat := 24 * 60 * 60 * 1000

/-- Truncation of an instant to the start of its (local) calendar day;
models `d.setHours(0, 0, 0, 0)` on a fresh `Date`. -/
def startOfDay (t : Nat) : Nat := dayMs * (t / dayMs)

/-- Characters removed by JavaScript `String.prototype.trim`. -/
def jsWhitespace (c : Char) : Bool :=
  c = ' ' || c = '\t' || c = '\n' || c = '\r' || c = '\x0b' || c = '\x0c'

/-- JavaScript `String.prototype.trim`. -/
def jsTrim (s : String) : String :=
  String.mk (((s.data.dropWhile jsWhitespace).reverse.dropWhile jsWhitespace).reverse)

/-- JavaScript `str.includes(c)` for a single-character needle. -/
def containsChar (s : String) (c : Char) : Bool :=
  s.data.contains c

/-- Fuelled matcher for SQL `LIKE` patterns (`%` any sequence, `_` one
character); the fuel in `likeMatch` strictly exceeds the number of steps any
derivation needs, since every recursive call shrinks pattern + string. -/
def likeMatchAux : Nat → List Char → List Char → Bool
  | 0, _, _ => false
  | _ + 1, [], [] => true
  | _ + 1, [], _ :: _ => false
  | fuel + 1, '%' :: ps, s =>
      likeMatchAux fuel ps s ||
        (match s with
         | [] => false
         | _ :: s2 => likeMatchAux fuel ('%' :: ps) s2)
  | fuel + 1, '_' :: ps, s =>
      (match s with
       | [] => false
       | _ :: s2 => likeMatchAux fuel ps s2)
  | fuel + 1, p :: ps, s =>
      (match s with
       | [] => false
       | c :: s2 => (c == p) && likeMatchAux fuel ps s2)

/-- SQL `LIKE` on full strings. -/
def likeMatch (p s : List Char) : Bool :=
  likeMatchAux (p.length + s.length + 1) p s

/-- SQL `ILIKE`: case-insensitive `LIKE`. -/
def sqlIlike (pat s : String) : Bool :=
  likeMatch (pat.data.map Char.toLower) (s.data.map Char.toLower)

/-- `ILIKE` against a nullable column: a NULL column never satisfies the
predicate (the SQL result is NULL, which `OR`/`WHERE` treat as not
selected). -/
def optIlike (pat : String) (o : Option String) : Bool :=
  match o with
  | none => false
  | some s => sqlIlike pat s

/-- The optional filter of `getAppointmentsFilterSchema`. -/
structure GetAppointmentsFilter where
  status : Option AppointmentStatus
  startDate : Option Nat
  endDate : Option Nat
  search : Option String
deriving DecidableEq, Repr

/-- The `OR` of the three `ilike` conditions built from a search term
(`'%' + term + '%'`). -/
def searchMatches (term : String) (a : Appointment) : Bool :=
  let pat := "%" ++ term ++ "%"
  sqlIlike pat a.name || optIlike pat a.phone || optIlike pat a.email

/-- The `WHERE` predicate built by `getAppointments`
(src/server/src/handlers/get_appointments.ts): status equality, inclusive
date bounds, and a search condition that is only added when the *trimmed*
search term is non-empty, using the trimmed term. -/
def matchesGet (f : Option GetAppointmentsFilter) (a : Appointment) : Bool :=
  match f with
  | none => true
  | some flt =>
    (match flt.status with
     | none => true
     | some st => a.status == st) &&
    (match flt.startDate with
     | none => true
     | some d => decide (d ≤ a.preferred_date)) &&
    (match flt.endDate with
     | none => true
     | some d => decide (a.preferred_date ≤ d)) &&
    (match flt.search with
     | none => true
     | some s => if s ≠ "" && jsTrim s ≠ "" then searchMatches (jsTrim s) a else true)

/-- The `WHERE` predicate built by `exportAppointmentsCSV` (the CSV export
handler): identical to `matchesGet` except that the search condition is
added whenever the raw term is non-empty and uses the raw, untrimmed
term. -/
def matchesCSV (f : Option GetAppointmentsFilter) (a : Appointment) : Bool :=
  match f with
  | none => true
  | some flt =>
    (match flt.status with
     | none => true
     | some st => a.status == st) &&
    (match flt.startDate with
     | none => true
     | some d => decide (d ≤ a.preferred_date)) &&
    (match flt.endDate with
     | none => true
     | some d => decide (a.preferred_date ≤ d)) &&
    (match flt.search with
     | none => true
     | some s => if s ≠ "" then searchMatches s a else true)

/-- The rows a `SELECT ... ORDER BY created_at DESC` may return for
`getAppointments`: any enumeration of the matching rows that is
nonincreasing in `created_at`.  No further ordering key appears in the
query. -/
@[reducible]
def getAppointmentsResult (store : List Appointment) (f : Option GetAppointmentsFilter)
    (out : List Appointment) : Prop :=
  List.Perm (store.filter (fun a => matchesGet f a)) out ∧
    List.Sorted (fun x y : Appointment => y.created_at ≤ x.created_at) out

/-- The rows the CSV export's `SELECT` (which has no `ORDER BY`) may
return: any enumeration of the rows matching its predicate. -/
@[reducible]
def exportAppointmentsRows (store : List Appointment) (f : Option GetAppointmentsFilter)
    (out : List Appointment) : Prop :=
  List.Perm (store.filter (fun a => matchesCSV f a)) out

/-- JavaScript `str.replace(/"/g, '""')` on the character list. -/
def doubleQuotes : List Char → List Char
  | [] => []
  | c :: rest => if c = '"' then '"' :: '"' :: doubleQuotes rest else c :: doubleQuotes rest

/-- `escapeCSV` on a string value: wrap in double quotes, doubling internal
double quotes, when the value contains a comma, quote, or line break. -/
def escapeCSVString (s : String) : String :=
  if containsChar s ',' || containsChar s '"' || containsChar s '\n' || containsChar s '\r'
  then "\"" ++ String.mk (doubleQuotes s.data) ++ "\""
  else s

/-- `escapeCSV` on a nullable value: null/undefined render as the empty
string. -/
def escapeCSVField (o : Option String) : String :=
  match o with
  | none => ""
  | some s => escapeCSVString s

/-- `formatAddress`: the seven address parts, dropping null and empty ones,
joined with `", "`. -/
def formatAddress (a : Appointment) : String :=
  String.intercalate ", "
    (([a.address_house_no, a.address_house_name, a.address_street, a.address_locality,
       a.address_city, a.address_state, a.address_pincode].filterMap id).filter
      (fun s => s ≠ ""))

/-- `formatCoordinates`: `"<lat>, <lng>"` when both are present, else
empty. -/
def formatCoordinates (lat lng : Option Int) : String :=
  match lat, lng with
  | some la, some ln => toString la ++ ", " ++ toString ln
  | _, _ => ""

/-- Left-pad a numeral with zeros to the given width. -/
def padNum (width n : Nat) : String :=
  let s := toString n
  String.mk (List.replicate (width - s.length) '0') ++ s

/-- Civil date from a count of days since 1970-01-01 (Gregorian
calendar). -/
def civilFromDays (z0 : Nat) : Nat × Nat × Nat :=
  let z := z0 + 719468
  let era := z / 146097
  let doe := z % 146097
  let yoe := (doe - doe / 1460 + doe / 36524 - doe / 146096) / 365
  let doy := doe - (365 * yoe + yoe / 4 - yoe / 100)
  let mp := (5 * doy + 2) / 153
  let d := doy - (153 * mp + 2) / 5 + 1
  let m := if mp < 10 then mp + 3 else mp - 9
  let y := yoe + era * 400 + (if m ≤ 2 then 1 else 0)
  (y, m, d)

/-- The date part of `Date.prototype.toISOString` (`YYYY-MM-DD`), as taken
by `toISOString().split('T')[0]`. -/
def toISODate (ms : Nat) : String :=
  let c := civilFromDays (ms / dayMs)
  padNum 4 c.1 ++ "-" ++ padNum 2 c.2.1 ++ "-" ++ padNum 2 c.2.2

/-- Full `Date.prototype.toISOString` rendering. -/
def toISOTimestamp (ms : Nat) : String :=
  let rem := ms % dayMs
  toISODate ms ++ "T" ++ padNum 2 (rem / 3600000) ++ ":" ++ padNum 2 (rem % 3600000 / 60000) ++
    ":" ++ padNum 2 (rem % 60000 / 1000) ++ "." ++ padNum 3 (rem % 1000) ++ "Z"

/-- Status value as stored/rendered text. -/
def statusToString : AppointmentStatus → String
  | .Received => "Received"
  | .Contacted => "Contacted"
  | .Confirmed => "Confirmed"
  | .Completed => "Completed"
  | .Cancelled => "Cancelled"

/-- The fixed CSV header row of the export handler. -/
def csvHeaderLine : String :=
  "ID,Name,Phone,Email,Tests,Preferred Date,Status,Address,Coordinates,Notes,Slot Hint,Fasting Required,Created At,Updated At,Last Reminder Sent"

/-- One CSV data row, field by field as in the export handler's loop. -/
def renderCSVRow (a : Appointment) : String :=
  String.intercalate ","
    [escapeCSVString (toString a.id),
     escapeCSVString a.name,
     escapeCSVField a.phone,
     escapeCSVField a.email,
     escapeCSVString (String.intercalate "; " a.tests),
     escapeCSVString (toISODate a.preferred_date),
     escapeCSVString (statusToString a.status),
     escapeCSVString (formatAddress a),
     escapeCSVString (formatCoordinates a.lat a.lng),
     escapeCSVField a.notes,
     escapeCSVField a.slot_hint,
     escapeCSVString (if a.fasting_required then "Yes" else "No"),
     escapeCSVString (toISOTimestamp a.created_at),
     escapeCSVString (toISOTimestamp a.updated_at),
     escapeCSVField (a.last_reminder_sent_at.map toISOTimestamp)]

/-- The CSV document built from the fetched rows: header line, then one
line per row, joined with `'\n'`. -/
def exportAppointmentsCSVText (rows : List Appointment) : String :=
  String.intercalate "\n" (csvHeaderLine :: rows.map renderCSVRow)

/-- The `createAppointmentInputSchema` input shape. -/
structure CreateAppointmentInput where
  name : String
  phone : Option String
  email : Option String
  tests : List String
  preferred_date : Nat
  notes : Option String
  address_house_no : Option String
  address_house_name : Option String
  address_street : Option String
  address_locality : Option String
  address_city : Option String
  address_state : Option String
  address_pincode : Option String
  lat : Option Int
  lng : Option Int
  slot_hint : Option String
deriving DecidableEq, Repr

/-- Split a character list at every occurrence of the separator. -/
def splitOnChar (c : Char) : List Char → List (List Char)
  | [] => [[]]
  | x :: rest =>
      match splitOnChar c rest with
      | [] => [[]]
      | g :: gs => if x = c then [] :: g :: gs else (x :: g) :: gs

/-- Character set of the local part of zod's email regular expression. -/
def emailLocalChar (c : Char) : Bool :=
  c.isAlphanum || c = '_' || c = '\'' || c = '+' || c = '-' || c = '.'

/-- Allowed final character of the local part (no dot, no apostrophe). -/
def emailLocalLastChar (c : Char) : Bool :=
  c.isAlphanum || c = '_' || c = '+' || c = '-'

/-- No two consecutive dots. -/
def noDoubleDot : List Char → Bool
  | c1 :: c2 :: rest => !(c1 = '.' && c2 = '.') && noDoubleDot (c2 :: rest)
  | _ => true

/-- One non-final domain label: leading alphanumeric, then alphanumerics or
hyphens. -/
def emailLabelOk (l : List Char) : Bool :=
  match l with
  | [] => false
  | c :: rest => c.isAlphanum && rest.all (fun x => x.isAlphanum || x = '-')

/-- Validity per zod's email regular expression: `local@domain` with the
local part over its character set (not starting with a dot, not ending in a
dot or apostrophe, no `..` anywhere) and the domain a dot-separated label
sequence ending in an alphabetic top-level label of length at least two. -/
def emailValid (s : String) : Bool :=
  match splitOnChar '@' s.data with
  | [lpart, domain] =>
      (match lpart with
       | [] => false
       | c :: _ =>
           !(c = '.') && lpart.all emailLocalChar &&
             (match lpart.getLast? with
              | none => false
              | some lastc => emailLocalLastChar lastc)) &&
        noDoubleDot s.data &&
        (match splitOnChar '.' domain with
         | [] => false
         | [_] => false
         | labels =>
             (match labels.getLast? with
              | none => false
              | some tld => decide (2 ≤ tld.length) && tld.all Char.isAlpha) &&
               (labels.dropLast.all emailLabelOk))
  | _ => false

/-- The fixed fasting-test set of the create handler. -/
def fastingTests : List String := ["CBC", "KFT", "Lipid Profile"]

/-- Base object checks of `createAppointmentInputSchema`: name non-empty,
email format when an email is present, at least one test. -/
def createBaseIssues (input : CreateAppointmentInput) : List String :=
  (if input.name.length ≥ 1 then [] else ["Name is required"]) ++
    (match input.email with
     | none => []
     | some e => if emailValid e then [] else ["Invalid email format"]) ++
    (if input.tests.length ≥ 1 then [] else ["At least one test is required"])

/-- The three `.refine` checks of `createAppointmentInputSchema`: a contact
method, a preferred date not before the start of the current day, and
either a map pin or the street/locality/city triple. -/
def createRefineIssues (input : CreateAppointmentInput) (now : Nat) : List String :=
  (if input.phone ≠ none ∨ input.email ≠ none then []
   else ["At least one of phone or email is required"]) ++
    (if startOfDay now ≤ input.preferred_date then []
     else ["Preferred date cannot be in the past"]) ++
    (if (input.lat ≠ none ∧ input.lng ≠ none) ∨
        (input.address_street ≠ none ∧ input.address_locality ≠ none ∧
          input.address_city ≠ none) then []
     else ["Address requires either a map pin or street, locality, and city"])

/-- Validation of `createAppointmentInputSchema` at instant `now`: the base
object checks run first; the `.refine` checks only run when they pass, as
zod skips refinements when the inner parse fails.  Returns the issue
messages. -/
def validateCreateAppointmentInput (input : CreateAppointmentInput) (now : Nat) :
    List String :=
  if createBaseIssues input = [] then createRefineIssues input now
  else createBaseIssues input

/-- Next serial identity. -/
def nextId (store : List Appointment) : Nat :=
  store.foldr (fun a m => max a.id m) 0 + 1

/-- The create handler (handlers/create_appointment.ts): derives
`fasting_required` from the tests, inserts the row with status `Received`,
system timestamps, and a null reminder timestamp, and returns it. -/
def createAppointment (store : List Appointment) (input : CreateAppointmentInput)
    (now : Nat) : List Appointment × Appointment :=
  let fasting := input.tests.any (fun t => fastingTests.contains t)
  let record : Appointment :=
    { id := nextId store
      name := input.name
      phone := input.phone
      email := input.email
      tests := input.tests
      preferred_date := input.preferred_date
      notes := input.notes
      address_house_no := input.address_house_no
      address_house_name := input.address_house_name
      address_street := input.address_street
      address_locality := input.address_locality
      address_city := input.address_city
      address_state := input.address_state
      address_pincode := input.address_pincode
      lat := input.lat
      lng := input.lng
      status := .Received
      created_at := now
      updated_at := now
      last_reminder_sent_at := none
      slot_hint := input.slot_hint
      fasting_required := fasting }
  (store ++ [record], record)

/-- The four notification channels of the dispatcher. -/
inductive NotificationChannel where
  | customerEmail
  | customerWhatsApp
  | adminEmail
  | adminWhatsApp
deriving DecidableEq, Repr

/-- The channels `sendAppointmentNotifications` fires for a record:
customer email if an email is present, customer WhatsApp if a phone is
present, and both admin channels always. -/
def sendAppointmentNotificationsChannels (a : Appointment) : List NotificationChannel :=
  (if a.email.isSome then [NotificationChannel.customerEmail] else []) ++
    (if a.phone.isSome then [NotificationChannel.customerWhatsApp] else []) ++
    [NotificationChannel.adminEmail, NotificationChannel.adminWhatsApp]

/-- Successful response body of the `createAppointment` route. -/
structure AppointmentCreatedResponse where
  success : Bool
  message : String
  appointment : Appointment
deriving DecidableEq, Repr

/-- Outcome of one `createAppointment` route call: the resulting store, the
response (absent when validation fails, in which case `errors` holds the
issue messages), and the log of notification sends the route performed. -/
structure CreateRouteResult where
  store : List Appointment
  response : Option AppointmentCreatedResponse
  errors : List String
  dispatched : List NotificationChannel
deriving DecidableEq, Repr

/-- The `createAppointment` boundary operation (index.ts lines 39-48): the
zod input schema runs first; on success the handler persists the record and
the route returns the success envelope.  The route body contains no call
into the notification module, so the log of notification sends it performs
is empty. -/
def createAppointmentRoute (store : List Appointment) (input : CreateAppointmentInput)
    (now : Nat) : CreateRouteResult :=
  let errs := validateCreateAppointmentInput input now
  if errs = [] then
    let res := createAppointment store input now
    { store := res.1
      response := some
        { success := true
          message := "Booking received — you will be contacted for further info."
          appointment := res.2 }
      errors := []
      dispatched := [] }
  else
    { store := store, response := none, errors := errs, dispatched := [] }

/-- Input shape of `updateAppointmentStatusInputSchema`: `notes = none`
means the field was omitted, `notes = some none` that `null` was passed
explicitly. -/
structure UpdateAppointmentStatusInput where
  id : Nat
  status : AppointmentStatus
  notes : Option (Option String)
deriving DecidableEq, Repr

/-- The `SET` clause of the status update: always status and `updated_at`;
notes only when the field was provided (`null` included). -/
def applyStatusUpdate (input : UpdateAppointmentStatusInput) (now : Nat)
    (a : Appointment) : Appointment :=
  { a with
    status := input.status
    updated_at := now
    notes := match input.notes with
             | none => a.notes
             | some v => v }

/-- The status-update handler: `UPDATE ... SET status, updated_at
[, notes] WHERE id = input.id RETURNING *`; the first returned row, or
`none` when no row matched. -/
def updateAppointmentStatus (store : List Appointment)
    (input : UpdateAppointmentStatusInput) (now : Nat) :
    List Appointment × Option Appointment :=
  let store2 :=
    store.map (fun a => if a.id == input.id then applyStatusUpdate input now a else a)
  let returned :=
    (store.filter (fun a => a.id == input.id)).map (applyStatusUpdate input now)
  (store2, returned.head?)

/-- Response of `authenticateAdmin`. -/
structure AdminAuthResponse where
  success : Bool
  message : String
deriving DecidableEq, Repr

/-- The admin authentication handler: `adminPass` models
`process.env.ADMIN_PASS` (`none` when unset); an unset or empty secret is
falsy in `if (!adminPassword)` and yields the unconfigured message, else
the outcome is plain string equality. -/
def authenticateAdmin (adminPass : Option String) (password : String) :
    AdminAuthResponse :=
  match adminPass with
  | none => { success := false, message := "Authentication system not configured" }
  | some p =>
      if p = "" then { success := false, message := "Authentication system not configured" }
      else if password = p then { success := true, message := "Authentication successful" }
      else { success := false, message := "Invalid password" }

/-- The reminder job's selection predicate (its `WHERE` clause): preferred
date between start-of-tomorrow and start-of-day-after-tomorrow — both
bounds inclusive, `gte`/`lte` in the source — status `Received` or
`Confirmed`, and no reminder yet or the last one at least 24 hours ago
(`lte` against `Date.now() - 24*60*60*1000`). -/
def reminderSelect (now : Nat) (a : Appointment) : Bool :=
  let tomorrow := startOfDay now + dayMs
  let dayAfterTomorrow := tomorrow + dayMs
  decide (tomorrow ≤ a.preferred_date) && decide (a.preferred_date ≤ dayAfterTomorrow) &&
    (a.status == .Received || a.status == .Confirmed) &&
    (match a.last_reminder_sent_at with
     | none => true
     | some t => decide (t ≤ now - 24 * 60 * 60 * 1000))

/-- Outcome of the two reminder channel sends for one appointment; each
send function in the source catches its own errors and returns a boolean,
so an environment of booleans per appointment identity is the full outcome
space. -/
structure ReminderOutcome where
  emailOk : Bool
  whatsappOk : Bool
deriving DecidableEq, Repr

/-- `sendReminderNotifications`: false when no contact channel exists
(skip); otherwise true iff at least one applicable channel send returned
true. -/
def sendReminderNotificationsModel (env : Nat → ReminderOutcome) (a : Appointment) :
    Bool :=
  if a.email.isNone && a.phone.isNone then false
  else
    (a.email.isSome && (env a.id).emailOk) || (a.phone.isSome && (env a.id).whatsappOk)

/-- The row update performed after a successful reminder. -/
def markReminded (now : Nat) (a : Appointment) : Appointment :=
  { a with last_reminder_sent_at := some now, updated_at := now }

/-- `UPDATE appointments SET last_reminder_sent_at = now, updated_at = now
WHERE id = i`. -/
def dbUpdateReminder (store : List Appointment) (i : Nat) (now : Nat) :
    List Appointment :=
  store.map (fun b => if b.id == i then markReminded now b else b)

/-- The reminder job's per-record loop over the fetched rows: count each
record processed, attempt its sends, and on success count it sent and
update its row; a failure for one record never stops the loop. -/
def reminderLoop (env : Nat → ReminderOutcome) (now : Nat) :
    List Appointment → List Appointment → List Appointment × Nat × Nat
  | [], store => (store, 0, 0)
  | a :: rest, store =>
      let ok := sendReminderNotificationsModel env a
      let store1 := if ok then dbUpdateReminder store a.id now else store
      let r := reminderLoop env now rest store1
      (r.1, r.2.1 + 1, r.2.2 + (if ok then 1 else 0))

/-- `sendNextDayReminders`: fetch the selected rows, then run the loop;
returns the final store and the `(processed, sent)` counters. -/
def sendNextDayRemindersModel (store : List Appointment) (now : Nat)
    (env : Nat → ReminderOutcome) : List Appointment × Nat × Nat :=
  reminderLoop env now (store.filter (fun a => reminderSelect now a)) store

/-- A filter whose search term (if any) is unchanged by trimming; on such
filters the export's predicate and `getAppointments`' predicate coincide. -/
@[reducible]
def cleanSearch (f : Option GetAppointmentsFilter) : Prop :=
  ∀ s, f.bind (fun flt => flt.search) = some s → jsTrim s = s

/-- A template record used by the concrete test states below. -/
def baseAppt : Appointment :=
  { id := 1
    name := "A"
    phone := none
    email := none
    tests := ["CBC"]
    preferred_date := 0
    notes := none
    address_house_no := none
    address_house_name := none
    address_street := none
    address_locality := none
    address_city := none
    address_state := none
    address_pincode := none
    lat := none
    lng := none
    status := .Received
    created_at := 0
    updated_at := 0
    last_reminder_sent_at := none
    slot_hint := none
    fasting_required := false }

/-- A creation instant early on day 3. -/
def c1Now : Nat := 3 * dayMs + 1000

/-- A fully valid intake input with both contact channels present. -/
def c1Input : CreateAppointmentInput :=
  { name := "John Doe"
    phone := some "+919876543210"
    email := some "john@example.com"
    tests := ["CBC"]
    preferred_date := 4 * dayMs
    notes := none
    address_house_no := none
    address_house_name := none
    address_street := some "Main Street"
    address_locality := some "Central Area"
    address_city := some "Mumbai"
    address_state := none
    address_pincode := none
    lat := none
    lng := none
    slot_hint := none }

/-- An instant during day 3; its start-of-tomorrow is `4 * dayMs` and its
start-of-day-after-tomorrow is `5 * dayMs`. -/
def c2Now : Nat := 3 * dayMs + 5000000

/-- An eligible-status appointment dated exactly at the start of the day
after tomorrow relative to `c2Now` — two days out. -/
def c2Appt : Appointment :=
  { baseAppt with preferred_date := 5 * dayMs, status := .Received }

/-- Record whose name contains the search term with its surrounding
whitespace. -/
def c3R1 : Appointment := { baseAppt with id := 1, name := "x a x", created_at := 100 }

/-- Second such record, created later. -/
def c3R2 : Appointment := { baseAppt with id := 2, name := "y a y", created_at := 200 }

/-- Record whose name contains the trimmed search term only. -/
def c3R3 : Appointment := { baseAppt with id := 3, name := "za", created_at := 300 }

/-- Store for the export/query comparison. -/
def c3Store : List Appointment := [c3R1, c3R2, c3R3]

/-- A filter whose search term carries surrounding whitespace. -/
def c3Filter : Option GetAppointmentsFilter :=
  some { status := none, startDate := none, endDate := none, search := some " a " }

/-- Single record used to instantiate the export/query agreement. -/
def c3W : Appointment := baseAppt

/-- Noon of day 2. -/
def c5Now : Nat := 2 * dayMs + 43200000

/-- A valid input whose preferred date is midnight of the current day:
earlier than the creation instant, yet not before the start of the day. -/
def c5Input : CreateAppointmentInput :=
  { name := "Jane"
    phone := some "9876543210"
    email := none
    tests := ["CBC"]
    preferred_date := 2 * dayMs
    notes := none
    address_house_no := none
    address_house_name := none
    address_street := some "Main Street"
    address_locality := some "Central Area"
    address_city := some "Mumbai"
    address_state := none
    address_pincode := none
    lat := none
    lng := none
    slot_hint := none }

/-- The same input with both contact methods removed. -/
def c5WInput : CreateAppointmentInput := { c5Input with phone := none, email := none }

/-- Channel outcomes: appointment 1's email send succeeds, everything else
fails. -/
def c6Env : Nat → ReminderOutcome :=
  fun i => if i = 1 then { emailOk := true, whatsappOk := false }
           else { emailOk := false, whatsappOk := false }

/-- Start of day 3; its reminder window is day 4. -/
def c6Now : Nat := 3 * dayMs

/-- Selected appointment with an email address. -/
def c6A1 : Appointment :=
  { baseAppt with id := 1, email := some "a@example.com", preferred_date := 4 * dayMs + 1000 }

/-- Selected appointment with no contact channel at all. -/
def c6NoContact : Appointment :=
  { baseAppt with id := 2, preferred_date := 4 * dayMs + 2000 }

/-- First of two records sharing one creation timestamp. -/
def c8A : Appointment := { baseAppt with id := 1, created_at := 100 }

/-- Second record with the same creation timestamp. -/
def c8B : Appointment := { baseAppt with id := 2, created_at := 100 }

/-- A store with an equal-timestamp pair. -/
def c8Store : List Appointment := [c8A, c8B]

/-- A valid input requesting one fasting test and one non-fasting test. -/
def c9Input : CreateAppointmentInput :=
  { name := "Sam Lee"
    phone := some "5550100"
    email := none
    tests := ["KFT", "X-Ray"]
    preferred_date := 4 * dayMs
    notes := none
    address_house_no := none
    address_house_name := none
    address_street := none
    address_locality := none
    address_city := none
    address_state := none
    address_pincode := none
    lat := some 19
    lng := some 72
    slot_hint := none }

/-- Creation instant for the fasting-flag instantiation. -/
def c9Now : Nat := 3 * dayMs + 2000

/-- A stored record carrying notes. -/
def c4Rec : Appointment := { baseAppt with id := 7, notes := some "keep" }

/-- Store holding that single record. -/
def c4Store : List Appointment := [c4Rec]

/-- A status update that passes `null` notes explicitly. -/
def c4Input : UpdateAppointmentStatusInput :=
  { id := 7, status := .Confirmed, notes := some none }

/-- C1: the claim states that the `createAppointment` boundary operation,
after validating and persisting, triggers the Notification Dispatcher
fan-out for the new record.  At a fully valid input with both contact
channels the route validates and persists, yet its log of notification
sends is empty — the route never invokes the dispatcher — although the
dispatcher's fan-out for the created record would comprise all four
channels. -/
theorem createAppointment_route_dispatches_nothing :
    (createAppointmentRoute [] c1Input c1Now).errors = [] ∧
      (createAppointmentRoute [] c1Input c1Now).store.length = 1 ∧
      (createAppointmentRoute [] c1Input c1Now).dispatched = [] ∧
      sendAppointmentNotificationsChannels (createAppointment [] c1Input c1Now).2 =
        [NotificationChannel.customerEmail, NotificationChannel.customerWhatsApp,
         NotificationChannel.adminEmail, NotificationChannel.adminWhatsApp] := by
  decide

/-- C2: the claim states the reminder window is start-of-tomorrow inclusive
to start-of-day-after-tomorrow exclusive, so an appointment dated at the
start of the day after tomorrow is never selected.  The selection
predicate, evaluated at such an appointment (eligible status, no prior
reminder), returns true: the source bounds the window with an inclusive
`lte`. -/
theorem reminder_selects_start_of_day_after_tomorrow :
    c2Appt.preferred_date = startOfDay c2Now + 2 * dayMs ∧
      c2Appt.status = AppointmentStatus.Received ∧
      c2Appt.last_reminder_sent_at = none ∧
      reminderSelect c2Now c2Appt = true := by
  decide

/-- C9: every appointment created through the `createAppointment` boundary
operation stores `fasting_required = true` exactly when the requested tests
meet the fixed fasting set {CBC, KFT, Lipid Profile}. -/
theorem created_fasting_required_iff_fasting_test
    (store : List Appointment) (input : CreateAppointmentInput) (now : Nat)
    (h : validateCreateAppointmentInput input now = []) :
    ∃ r : AppointmentCreatedResponse,
      (createAppointmentRoute store input now).response = some r ∧
        (createAppointmentRoute store input now).store = store ++ [r.appointment] ∧
        (r.appointment.fasting_required = true ↔ ∃ t ∈ input.tests, t ∈ fastingTests) := by
  simp only [createAppointmentRoute]
  rw [if_pos h]
  refine ⟨_, rfl, rfl, ?_⟩
  simp [createAppointment, List.any_eq_true]

/-- Witness: the fasting-flag characterisation applied at a concrete valid
input requesting KFT and X-Ray. -/
theorem created_fasting_required_iff_fasting_test_witness :
    ∃ r : AppointmentCreatedResponse,
      (createAppointmentRoute [] c9Input c9Now).response = some r ∧
        (createAppointmentRoute [] c9Input c9Now).store = [] ++ [r.appointment] ∧
        (r.appointment.fasting_required = true ↔ ∃ t ∈ c9Input.tests, t ∈ fastingTests) :=
  created_fasting_required_iff_fasting_test [] c9Input c9Now (by decide)

/-- C10: with the admin secret unset or empty, `authenticateAdmin` answers
the fixed unconfigured-system failure for every password; with a non-empty
secret, success holds exactly when the password equals the secret. -/
theorem authenticateAdmin_spec (adminPass : Option String) (password : String) :
    ((adminPass = none ∨ adminPass = some "") →
      authenticateAdmin adminPass password =
        { success := false, message := "Authentication system not configured" }) ∧
      (∀ s : String, adminPass = some s → s ≠ "" →
        ((authenticateAdmin adminPass password).success = true ↔ password = s)) := by
  constructor
  · rintro (h | h) <;> subst h <;> simp [authenticateAdmin]
  · intro s hs hne
    subst hs
    by_cases hp : password = s <;> simp [authenticateAdmin, hne, hp]

/-- Witness: the unconfigured branch at a concrete password, and the
equality branch at a concrete matching password. -/
theorem authenticateAdmin_spec_witness :
    authenticateAdmin none "x" =
        { success := false, message := "Authentication system not configured" } ∧
      ((authenticateAdmin (some "pw") "pw").success = true ↔ "pw" = "pw") :=
  ⟨(authenticateAdmin_spec none "x").1 (Or.inl rfl),
   (authenticateAdmin_spec (some "pw") "pw").2 "pw" rfl (by decide)⟩

/-- No stored row carries the requested identity exactly when the filter by
that identity is empty. -/
theorem filter_by_id_eq_nil (store : List Appointment) (i : Nat)
    (h : ∀ a ∈ store, a.id ≠ i) :
    store.filter (fun a => a.id == i) = [] := by
  rw [List.filter_eq_nil_iff]
  intro a ha
  simpa using h a ha

/-- Under identity uniqueness, filtering by a member's identity yields just
that member. -/
theorem filter_by_id_singleton :
    ∀ (store : List Appointment) (a : Appointment) (i : Nat),
      a ∈ store → a.id = i → (store.map (fun x => x.id)).Nodup →
      store.filter (fun x => x.id == i) = [a] := by
  intro store
  induction store with
  | nil =>
    intro a i ha _ _
    exact absurd ha (List.not_mem_nil a)
  | cons b t ih =>
    intro a i ha hid hnd
    rw [List.map_cons, List.nodup_cons] at hnd
    obtain ⟨hbnotin, hndt⟩ := hnd
    rcases List.mem_cons.mp ha with hab | hat
    · subst hab
      have ht : t.filter (fun x => x.id == i) = [] := by
        rw [List.filter_eq_nil_iff]
        intro x hx hbe
        have hx2 : x.id = i := by simpa using hbe
        exact hbnotin (List.mem_map.mpr ⟨x, hx, hx2.trans hid.symm⟩)
      rw [List.filter_cons_of_pos (by simpa using hid), ht]
    · have hbne : ¬ (b.id == i) = true := by
        intro hbe
        have hb2 : b.id = i := by simpa using hbe
        exact hbnotin (List.mem_map.mpr ⟨a, hat, hid.trans hb2.symm⟩)
      have hstep : List.filter (fun x => x.id == i) (b :: t) =
          List.filter (fun x => x.id == i) t :=
        List.filter_cons_of_neg hbne
      rw [hstep]
      exact ih a i hat hid hndt

/-- Identity uniqueness makes identity injective on the store's members. -/
theorem appointment_id_inj (store : List Appointment)
    (hnd : (store.map (fun x => x.id)).Nodup) :
    ∀ a ∈ store, ∀ b ∈ store, a.id = b.id → a = b :=
  List.inj_on_of_nodup_map hnd

/-- C4: a status update against an unknown identity returns an absent
result and leaves the store completely unchanged; against an existing
record (identities unique) it returns the updated record, whose
`updated_at` is refreshed, whose notes are preserved when the field was
omitted and cleared when `null` was passed, and only that row changes in
the store. -/
theorem updateAppointmentStatus_spec (store : List Appointment)
    (input : UpdateAppointmentStatusInput) (now : Nat) :
    ((∀ a ∈ store, a.id ≠ input.id) →
        updateAppointmentStatus store input now = (store, none)) ∧
      (∀ a ∈ store, a.id = input.id → (store.map (fun x => x.id)).Nodup →
        ∃ a', (updateAppointmentStatus store input now).2 = some a' ∧
          a'.status = input.status ∧
          a'.updated_at = now ∧
          a'.created_at = a.created_at ∧
          (input.notes = none → a'.notes = a.notes) ∧
          (∀ v, input.notes = some v → a'.notes = v) ∧
          (updateAppointmentStatus store input now).1 =
            store.map (fun b => if b.id = input.id then a' else b)) := by
  constructor
  · intro h
    have hf := filter_by_id_eq_nil store input.id h
    simp only [updateAppointmentStatus, hf, List.map_nil, List.head?_nil]
    have hm : store.map
        (fun a => if a.id == input.id then applyStatusUpdate input now a else a) =
        store.map (fun a => a) :=
      List.map_congr_left (fun a ha => if_neg (fun hbe => h a ha (by simpa using hbe)))
    rw [hm, List.map_id']
  · intro a ha hid hnd
    have hf := filter_by_id_singleton store a input.id ha hid hnd
    refine ⟨applyStatusUpdate input now a, ?_, rfl, rfl, rfl, ?_, ?_, ?_⟩
    · simp only [updateAppointmentStatus, hf, List.map_cons, List.map_nil, List.head?_cons]
    · intro hn
      simp [applyStatusUpdate, hn]
    · intro v hv
      simp [applyStatusUpdate, hv]
    · simp only [updateAppointmentStatus]
      refine List.map_congr_left ?_
      intro b hb
      by_cases hbid : b.id = input.id
      · have hba : b = a := appointment_id_inj store hnd b hb a ha (hbid.trans hid.symm)
        subst hba
        rw [if_pos (by simpa using hbid), if_pos hbid]
      · rw [if_neg (fun hbe => hbid (by simpa using hbe)), if_neg hbid]

/-- Witness: the update applied to a one-record store with explicit `null`
notes. -/
theorem updateAppointmentStatus_spec_witness :
    ∃ a', (updateAppointmentStatus c4Store c4Input 50).2 = some a' ∧
      a'.status = c4Input.status ∧
      a'.updated_at = 50 ∧
      a'.created_at = c4Rec.created_at ∧
      (c4Input.notes = none → a'.notes = c4Rec.notes) ∧
      (∀ v, c4Input.notes = some v → a'.notes = v) ∧
      (updateAppointmentStatus c4Store c4Input 50).1 =
        c4Store.map (fun b => if b.id = c4Input.id then a' else b) :=
  (updateAppointmentStatus_spec c4Store c4Input 50).2 c4Rec (by decide) rfl (by decide)

/-- C5 counterexample: the claim says an input whose preferred date is in
the past at creation time fails validation and is not persisted.  At noon,
an otherwise valid input dated midnight of the same day — strictly earlier
than the creation instant — passes validation and is persisted: the
source's check compares against the start of the current day only. -/
theorem create_validation_accepts_past_time_today :
    c5Input.preferred_date < c5Now ∧
      validateCreateAppointmentInput c5Input c5Now = [] ∧
      (createAppointmentRoute [] c5Input c5Now).response ≠ none ∧
      (createAppointmentRoute [] c5Input c5Now).store ≠ [] := by
  decide

/-- C5 amended: an input lacking both phone and email, or whose preferred
date is before the start of the current calendar day, or lacking both the
coordinate pair and the full street/locality/city triple, fails validation
with a descriptive error, and the route persists nothing. -/
theorem create_validation_rejects_invalid_inputs
    (store : List Appointment) (input : CreateAppointmentInput) (now : Nat)
    (h : (input.phone = none ∧ input.email = none) ∨
        input.preferred_date < startOfDay now ∨
        ¬ ((input.lat ≠ none ∧ input.lng ≠ none) ∨
          (input.address_street ≠ none ∧ input.address_locality ≠ none ∧
            input.address_city ≠ none))) :
    validateCreateAppointmentInput input now ≠ [] ∧
      (createAppointmentRoute store input now).store = store ∧
      (createAppointmentRoute store input now).response = none := by
  have hr : createRefineIssues input now ≠ [] := by
    intro hc
    rcases h with ⟨h1, h2⟩ | h2 | h3
    · simp [createRefineIssues, h1, h2, List.append_eq_nil] at hc
    · have hle : ¬ (startOfDay now ≤ input.preferred_date) := by omega
      simp [createRefineIssues, hle, List.append_eq_nil] at hc
    · simp [createRefineIssues, h3, List.append_eq_nil] at hc
  have hv : validateCreateAppointmentInput input now ≠ [] := by
    unfold validateCreateAppointmentInput
    by_cases hb : createBaseIssues input = []
    · rw [if_pos hb]
      exact hr
    · rw [if_neg hb]
      exact hb
  refine ⟨hv, ?_, ?_⟩
  · simp only [createAppointmentRoute]
    rw [if_neg hv]
  · simp only [createAppointmentRoute]
    rw [if_neg hv]

/-- Witness: the rejection applied to a concrete input lacking both contact
methods. -/
theorem create_validation_rejects_invalid_inputs_witness :
    validateCreateAppointmentInput c5WInput 0 ≠ [] ∧
      (createAppointmentRoute [] c5WInput 0).store = [] ∧
      (createAppointmentRoute [] c5WInput 0).response = none :=
  create_validation_rejects_invalid_inputs [] c5WInput 0 (Or.inl ⟨rfl, rfl⟩)

/-- The identity of a reminded row is unchanged. -/
theorem markReminded_id (now : Nat) (b : Appointment) : (markReminded now b).id = b.id :=
  rfl

/-- Reminding an already-reminded row at the same instant changes
nothing. -/
theorem markReminded_idem (now : Nat) (b : Appointment) :
    markReminded now (markReminded now b) = markReminded now b :=
  rfl

/-- Characterisation of the reminder loop: the counters depend only on the
fetched list, and the final store marks exactly the rows whose identity
belongs to a successfully-reminded fetched record. -/
theorem reminderLoop_char (env : Nat → ReminderOutcome) (now : Nat) :
    ∀ (todo store : List Appointment),
      reminderLoop env now todo store =
        (store.map (fun b =>
           if (todo.filter (fun a => sendReminderNotificationsModel env a)).any
               (fun a => a.id == b.id) = true then markReminded now b else b),
         todo.length,
         (todo.filter (fun a => sendReminderNotificationsModel env a)).length) := by
  intro todo
  induction todo with
  | nil =>
    intro store
    simp [reminderLoop]
  | cons a rest ih =>
    intro store
    by_cases hok : sendReminderNotificationsModel env a = true
    · have hstep : (a :: rest).filter (fun x => sendReminderNotificationsModel env x) =
          a :: rest.filter (fun x => sendReminderNotificationsModel env x) :=
        List.filter_cons_of_pos hok
      have hmap : (dbUpdateReminder store a.id now).map
            (fun b => if (rest.filter (fun x => sendReminderNotificationsModel env x)).any
                (fun x => x.id == b.id) = true then markReminded now b else b) =
          store.map (fun b =>
            if ((a :: rest).filter (fun x => sendReminderNotificationsModel env x)).any
                (fun x => x.id == b.id) = true then markReminded now b else b) := by
        rw [hstep]
        simp only [dbUpdateReminder, List.map_map]
        refine List.map_congr_left ?_
        intro b _
        by_cases hb : b.id = a.id
        · have hba : (b.id == a.id) = true := by simpa using hb
          have hab : (a.id == b.id) = true := by simpa using hb.symm
          simp [Function.comp, hba, hab, markReminded, List.any_cons]
        · have hba : (b.id == a.id) = false := by simpa using hb
          have hab : (a.id == b.id) = false := by simpa using fun he => hb he.symm
          simp [Function.comp, hba, hab, List.any_cons]
      simp only [reminderLoop, hok, if_true]
      rw [ih (dbUpdateReminder store a.id now)]
      dsimp only
      rw [hmap]
      simp [hstep]
    · have hok2 : sendReminderNotificationsModel env a = false := by simpa using hok
      have hstep : (a :: rest).filter (fun x => sendReminderNotificationsModel env x) =
          rest.filter (fun x => sendReminderNotificationsModel env x) :=
        List.filter_cons_of_neg (by simp [hok2])
      simp only [reminderLoop, hok2, Bool.false_eq_true, if_false]
      rw [ih store]
      simp [hstep]

/-- C6: every selected record is counted in `processed`; a record is
counted in `sent` exactly when at least one applicable channel send
succeeds, and (identities unique) exactly those records get
`last_reminder_sent_at` and `updated_at` set to now while every other row
is untouched; a record with neither email nor phone is never counted as
sent; one record's outcome never affects another row, since the final
store is a pointwise map of each record's own selection and send
outcome. -/
theorem sendNextDayReminders_counters_spec (store : List Appointment) (now : Nat)
    (env : Nat → ReminderOutcome)
    (hnd : (store.map (fun x => x.id)).Nodup) :
    (sendNextDayRemindersModel store now env).2.1 =
        (store.filter (fun a => reminderSelect now a)).length ∧
      (sendNextDayRemindersModel store now env).2.2 =
        ((store.filter (fun a => reminderSelect now a)).filter
          (fun a => sendReminderNotificationsModel env a)).length ∧
      (sendNextDayRemindersModel store now env).1 =
        store.map (fun a =>
          if reminderSelect now a = true ∧ sendReminderNotificationsModel env a = true
          then markReminded now a else a) ∧
      (∀ a : Appointment, a.email = none → a.phone = none →
        sendReminderNotificationsModel env a = false) := by
  have hchar :=
    reminderLoop_char env now (store.filter (fun a => reminderSelect now a)) store
  refine ⟨?_, ?_, ?_, ?_⟩
  · simp only [sendNextDayRemindersModel, hchar]
  · simp only [sendNextDayRemindersModel, hchar]
  · simp only [sendNextDayRemindersModel, hchar]
    refine List.map_congr_left ?_
    intro b hb
    by_cases hsel : reminderSelect now b = true ∧ sendReminderNotificationsModel env b = true
    · have hmem : b ∈ ((store.filter (fun a => reminderSelect now a)).filter
          (fun a => sendReminderNotificationsModel env a)) :=
        List.mem_filter.mpr ⟨List.mem_filter.mpr ⟨hb, hsel.1⟩, hsel.2⟩
      have hany : (((store.filter (fun a => reminderSelect now a)).filter
          (fun a => sendReminderNotificationsModel env a)).any
            (fun a => a.id == b.id)) = true :=
        List.any_eq_true.mpr ⟨b, hmem, by simp⟩
      rw [if_pos hany, if_pos hsel]
    · have hany : ¬ ((((store.filter (fun a => reminderSelect now a)).filter
          (fun a => sendReminderNotificationsModel env a)).any
            (fun a => a.id == b.id)) = true) := by
        intro hc
        obtain ⟨x, hxmem, hxid⟩ := List.any_eq_true.mp hc
        have hx1 := List.mem_filter.mp hxmem
        have hx2 := List.mem_filter.mp hx1.1
        have hxb : x = b :=
          appointment_id_inj store hnd x hx2.1 b hb (by simpa using hxid)
        subst hxb
        exact hsel ⟨hx2.2, hx1.2⟩
      rw [if_neg hany, if_neg hsel]
  · intro a he hp
    simp [sendReminderNotificationsModel, he, hp]

/-- Witness: the batch counters and the skip of a contactless record at a
concrete two-record store and outcome environment. -/
theorem sendNextDayReminders_counters_spec_witness :
    (sendNextDayRemindersModel [c6A1, c6NoContact] c6Now c6Env).2.1 =
        (([c6A1, c6NoContact]).filter (fun a => reminderSelect c6Now a)).length ∧
      sendReminderNotificationsModel c6Env c6NoContact = false :=
  ⟨(sendNextDayReminders_counters_spec [c6A1, c6NoContact] c6Now c6Env (by decide)).1,
   (sendNextDayReminders_counters_spec [c6A1, c6NoContact] c6Now c6Env
      (by decide)).2.2.2 c6NoContact rfl rfl⟩

/-- C3 counterexample: the claim says the CSV export renders exactly the
records `getAppointments` returns for the same filter and in the same
creation-descending order.  For a search term with surrounding whitespace,
a store order `[c3R1, c3R2]` is a valid export row sequence while
`getAppointments` must return `[c3R3, c3R2, c3R1]`: the two are not even
permutations of each other (the export keeps the raw term, the query trims
it), and the export sequence is not creation-descending (its query has no
ORDER BY). -/
theorem exportCSV_differs_from_getAppointments :
    exportAppointmentsRows c3Store c3Filter [c3R1, c3R2] ∧
      getAppointmentsResult c3Store c3Filter [c3R3, c3R2, c3R1] ∧
      ¬ List.Perm [c3R1, c3R2] [c3R3, c3R2, c3R1] ∧
      ¬ List.Sorted (fun x y : Appointment => y.created_at ≤ x.created_at) [c3R1, c3R2] := by
  decide

/-- C3 amended: the CSV export renders exactly the records matching its own
predicate, in unspecified order; whenever the filter's search term is
absent or unchanged by trimming, that predicate coincides with
`getAppointments`', so the export rows are then a permutation of any
`getAppointments` result for the same filter. -/
theorem exportCSV_matches_getAppointments_under_trimmed_search
    (store : List Appointment) (f : Option GetAppointmentsFilter)
    (outC outG : List Appointment)
    (hC : exportAppointmentsRows store f outC)
    (hG : getAppointmentsResult store f outG)
    (hclean : cleanSearch f) :
    List.Perm outC outG := by
  have hpred : ∀ a, matchesCSV f a = matchesGet f a := by
    intro a
    cases f with
    | none => rfl
    | some flt =>
      cases hs : flt.search with
      | none => simp [matchesCSV, matchesGet, hs]
      | some s =>
        have ht : jsTrim s = s := hclean s (by simp [hs])
        by_cases hne : s = ""
        · simp [matchesCSV, matchesGet, hs, hne]
        · simp [matchesCSV, matchesGet, hs, hne, ht]
  have hfeq : store.filter (fun a => matchesCSV f a) =
      store.filter (fun a => matchesGet f a) := by
    simp only [hpred]
  have hC2 : List.Perm (store.filter (fun a => matchesCSV f a)) outC := hC
  have hG2 : List.Perm (store.filter (fun a => matchesGet f a)) outG := hG.1
  rw [hfeq] at hC2
  exact hC2.symm.trans hG2

/-- Witness: the agreement applied with no filter to a one-record store. -/
theorem exportCSV_matches_getAppointments_witness :
    List.Perm [c3W] [c3W] :=
  exportCSV_matches_getAppointments_under_trimmed_search [c3W] none [c3W] [c3W]
    (by decide) (by decide) (fun s h => Option.noConfusion h)

/-- C7: a field value containing a comma, double quote, or line break is
rendered wrapped in double quotes with internal double quotes doubled; a
null scalar renders as the empty string; and when no record matches the
filter, the export document is exactly the header line, which contains no
line break — a single line. -/
theorem csv_escaping_and_header_only :
    (∀ s : String,
        (containsChar s ',' || containsChar s '"' || containsChar s '\n' ||
          containsChar s '\r') = true →
        escapeCSVString s = "\"" ++ String.mk (doubleQuotes s.data) ++ "\"") ∧
      (∀ o : Option String, o = none → escapeCSVField o = "") ∧
      (∀ (store : List Appointment) (f : Option GetAppointmentsFilter)
          (out : List Appointment),
        store.filter (fun a => matchesCSV f a) = [] →
        exportAppointmentsRows store f out →
        exportAppointmentsCSVText out = csvHeaderLine ∧ '\n' ∉ csvHeaderLine.data) := by
  refine ⟨?_, ?_, ?_⟩
  · intro s h
    unfold escapeCSVString
    rw [if_pos h]
  · intro o h
    subst h
    rfl
  · intro store f out hfil hperm
    have hnil : List.Perm [] out := hfil ▸ hperm
    have hout : out = [] := hnil.symm.eq_nil
    subst hout
    exact ⟨rfl, by decide⟩

/-- Witness: a comma-carrying value, a null value, and the empty row
set. -/
theorem csv_escaping_and_header_only_witness :
    escapeCSVString "a,b" = "\"a,b\"" ∧
      escapeCSVField none = "" ∧
      exportAppointmentsCSVText [] = csvHeaderLine := by
  refine ⟨?_, csv_escaping_and_header_only.2.1 none rfl,
    (csv_escaping_and_header_only.2.2 [] none [] rfl (List.Perm.refl _)).1⟩
  have h := csv_escaping_and_header_only.1 "a,b" (by decide)
  rw [h]
  decide

/-- C8 counterexample: the claim says equal-creation-timestamp records
appear in a deterministic order, stable across calls on the same state.
For a store with two records sharing one creation timestamp, both
enumeration orders satisfy the query contract — the query orders only by
`created_at`, with no tie-break key — so the result order is not
determined. -/
theorem getAppointments_order_not_deterministic :
    getAppointmentsResult c8Store none [c8A, c8B] ∧
      getAppointmentsResult c8Store none [c8B, c8A] ∧
      [c8A, c8B] ≠ [c8B, c8A] := by
  decide

/-- C8 amended: every `getAppointments` result enumerates exactly the
matching records in creation-time-descending order, and the sequence of
creation timestamps is the same in all valid results; only the relative
order of records with equal timestamps is unspecified. -/
theorem getAppointments_sorted_desc_spec (store : List Appointment)
    (f : Option GetAppointmentsFilter) (out : List Appointment)
    (h : getAppointmentsResult store f out) :
    List.Perm out (store.filter (fun a => matchesGet f a)) ∧
      List.Sorted (fun x y : Appointment => y.created_at ≤ x.created_at) out ∧
      (∀ out', getAppointmentsResult store f out' →
        out.map (fun a => a.created_at) = out'.map (fun a => a.created_at)) := by
  refine ⟨h.1.symm, h.2, ?_⟩
  intro out' h'
  have hperm : List.Perm out out' := (h.1.symm).trans h'.1
  have hm : List.Perm (out.map (fun a => a.created_at))
      (out'.map (fun a => a.created_at)) := hperm.map _
  have hs1 : List.Sorted (fun x y : Nat => y ≤ x) (out.map (fun a => a.created_at)) :=
    List.pairwise_map.mpr h.2
  have hs2 : List.Sorted (fun x y : Nat => y ≤ x) (out'.map (fun a => a.created_at)) :=
    List.pairwise_map.mpr h'.2
  haveI : IsAntisymm Nat (fun x y : Nat => y ≤ x) :=
    ⟨fun a b h1 h2 => Nat.le_antisymm h2 h1⟩
  exact List.eq_of_perm_of_sorted hm hs1 hs2

/-- Witness: the ordering contract applied to a singleton store. -/
theorem getAppointments_sorted_desc_spec_witness :
    List.Sorted (fun x y : Appointment => y.created_at ≤ x.created_at) [c8A] :=
  (getAppointments_sorted_desc_spec [c8A] none [c8A] (by decide)).2.1
